import Mathlib

/- Formal model of the backend download-route module
   (src/apps/backend/routes/youtube-downloader.js).

   The module is shallowly embedded: metadata records, the per-id
   DownloadManager, the registry maps (`DownloadManager.instances`,
   `activeDownloads`, `instanceCleanup`), the on-disk files
   (`<id>.meta.json`, `<id>.tmp`) and the express route handlers become
   pure Lean functions over an explicit state.  Byte contents are
   `List Nat`; wall-clock timestamps are `Nat` milliseconds; the md5 id
   derivation is abstracted to the hashed string itself.  All state is
   per download id (every map in the source is keyed by the id), so the
   maps are modelled by their membership flag for the id under study. -/

namespace YoutubeDownloader

/-- Output kind of a request: the `type` query parameter, `'audio' | 'video'`. -/
inductive MediaType where
  | audio
  | video
deriving DecidableEq

/-- Persisted `status` field values: `'in progress' | 'paused' | 'completed' | 'failed'`. -/
inductive DStatus where
  | inProgress
  | paused
  | completed
  | failed
deriving DecidableEq

/-- The persisted metadata record (`saveDownloadMetadata` / `loadDownloadMetadata`,
lines 83-101, record shape built at lines 523-535).  `totalSize = 0` plays the
role of the JS falsy/unknown total (the source always stores a number and tests
it for truthiness).  The `finalSize`/`completedAt` fields, written only by the
completion handlers, are elided: no modelled operation reads them. -/
structure Metadata where
  url : String
  mediaType : MediaType
  quality : String
  filename : String
  contentType : String
  status : DStatus
  totalSize : Nat
  currentSize : Nat
  createdAt : Nat
  lastModified : Nat
deriving DecidableEq

/-- Total content-length estimate, lines 502-520: each missing/falsy
`contentLength` is replaced by `0` (`videoFormat?.contentLength ? parseInt(...) : 0`),
and for `type === 'video'` the two values are summed. -/
def totalContentLength (t : MediaType) (videoLen audioLen : Option Nat) : Nat :=
  match t with
  | .video => videoLen.getD 0 + audioLen.getD 0
  | .audio => audioLen.getD 0

/-- Modelled from the spec (refinement target for claim C5, spec section 4.4 item 2):
the total is the sum when both content lengths are known, and unknown (absent)
when either is unknown.  This definition follows the spec words and is compared
against `totalContentLength`, which follows the source. -/
def specTotalSize (t : MediaType) (videoLen audioLen : Option Nat) : Option Nat :=
  match t with
  | .video =>
    match videoLen, audioLen with
    | some v, some a => some (v + a)
    | _, _ => none
  | .audio => audioLen

/-- Still-image pipe formats named by the spec (PNG/JPEG/GIF/WEBP).  The source
has no value of this kind; the type exists so that the spec claim about engine
arguments can be stated over the source's argument construction. -/
inductive ImageFormat where
  | png
  | jpeg
  | gif
  | webp
deriving DecidableEq

/-- FFmpeg argument vector for `type === 'video'`, lines 657-677 (identical at
lines 840-860): video stream copied, audio re-encoded to AAC, fragmented /
fast-start MP4 container. -/
def ffmpegVideoArgs : List String :=
  ["-loglevel", "error", "-i", "pipe:3", "-i", "pipe:4", "-c:v", "copy",
   "-c:a", "aac", "-movflags", "frag_keyframe+empty_moov+faststart",
   "-avoid_negative_ts", "make_zero", "-fflags", "+genpts", "-f", "mp4", "pipe:1"]

/-- FFmpeg argument vector for `type === 'audio'`, lines 689-701 (identical at
lines 872-884): constant-bitrate 192k MP3. -/
def ffmpegAudioArgs : List String :=
  ["-loglevel", "error", "-i", "pipe:3", "-c:a", "libmp3lame", "-b:a", "192k",
   "-f", "mp3", "pipe:1"]

/-- Engine argument construction, lines 630-706 and 813-889.  In the source the
argument vector depends only on `metadata.type`; the extra parameters named by
the spec (`hasCoverArt`, `imageFormat`) have no counterpart in the code — there
is no cover-art branch, no attached-picture mapping and no magic-byte sniffing —
so they are accepted and ignored, which is exactly what the code does to any
would-be cover-art input. -/
def buildEngineArgs (t : MediaType) (_hasCoverArt : Bool) (_imageFormat : ImageFormat) :
    List String :=
  match t with
  | .video => ffmpegVideoArgs
  | .audio => ffmpegAudioArgs

/-- One chunk of FFmpeg stdout as seen by the progress-tracker transform
(lines 611-628 / 794-811), together with the values of
`downloadManager.isPaused` / `downloadManager.isCancelled` at the moment the
chunk is transformed. -/
structure EngineChunk where
  data : List Nat
  paused : Bool
  cancelled : Bool
deriving DecidableEq

/-- Bytes the progress tracker forwards (`res.write(chunk)` plus the identical
write to the temp file): a chunk is dropped when `isPaused || isCancelled`
(lines 613-615 / 796-798), otherwise passed through unchanged and in order. -/
def trackerForward (cs : List EngineChunk) : List Nat :=
  ((cs.filter fun c => !c.paused && !c.cancelled).map EngineChunk.data).flatten

/-- Successive values persisted into `metadata.currentSize` by the progress
tracker of `startCompleteDownloadProcess`, lines 771-774: the `data` handler runs
once per forwarded chunk and stores `chunk.length` (the length of that single
chunk, not the running total `bytesDownloaded`). -/
def completePersistedSizes (cs : List EngineChunk) : List Nat :=
  (cs.filter fun c => !c.paused && !c.cancelled).map fun c => c.data.length

/-- On-disk working area for one download id: the metadata file
`<id>.meta.json` and the temp artifact `<id>.tmp` (`none` = file absent). -/
structure Fs where
  meta? : Option Metadata
  temp? : Option (List Nat)
deriving DecidableEq

/-- In-memory `DownloadManager` instance fields (constructor, lines 139-152).
Opened resources (the ytdl source streams, the temp-file write stream, the
ffmpeg child process) are modelled by numeric handles. -/
structure Manager where
  isPaused : Bool
  isCompleted : Bool
  isCancelled : Bool
  currentSize : Nat
  metadata : Metadata
  streams : List Nat
  tempFileStream : Option Nat
  ffmpeg : Option Nat
deriving DecidableEq

/-- Whole per-id system state: the manager under study, the id's membership in
the three process-wide maps (`DownloadManager.instances`, `activeDownloads`,
`DownloadManager.instanceCleanup`), the on-disk files, and two audit logs of
resource handles opened / destroyed so far. -/
structure Sys where
  mgr : Manager
  registered : Bool
  activeEntry : Bool
  timer : Bool
  fs : Fs
  opened : List Nat
  destroyed : List Nat
deriving DecidableEq

/-- File size helper, lines 122-129: `fs.stat` size, `0` when the file is
absent.  Applied to the temp artifact this is `getFileSize(getTempFilePath(id))`. -/
def getFileSize (fs : Fs) : Nat := (fs.temp?.getD []).length

/-- Helper `cleanupTempFiles`, lines 104-119: unlinks both the temp artifact and
the metadata file, errors ignored.  It does not touch the in-memory maps (the
`activeDownloads.delete` line is commented out in the source). -/
def cleanupTempFiles (s : Sys) : Sys :=
  { s with fs := { meta? := none, temp? := none } }

namespace DownloadManager

/-- Fresh `DownloadManager` constructor field values, lines 139-152. -/
def freshManager (md : Metadata) : Manager :=
  { isPaused := false, isCompleted := false, isCancelled := false,
    currentSize := 0, metadata := md, streams := [],
    tempFileStream := none, ffmpeg := none }

/-- `DownloadManager.getInstance`, lines 154-164, together with the constructor
side effect `initializeCleanupTimers` (lines 165-173): an already registered id
keeps its existing instance (the `metadata` argument is ignored); otherwise a
fresh instance is created, registered in `instances`, and a reaper interval is
installed for the id. -/
def getInstance (s : Sys) (md : Metadata) : Sys :=
  if s.registered = true then s
  else { s with registered := true, timer := true, mgr := freshManager md }

/-- Static `DownloadManager.cleanup(downloadId)`, lines 275-283: returns `false`
leaving everything unchanged when the id is not in `instances`; otherwise
removes the id from `instances` and `activeDownloads` and returns `true`. -/
def cleanupById (s : Sys) : Bool × Sys :=
  if s.registered = true then
    (true, { s with registered := false, activeEntry := false })
  else (false, s)

/-- Resource handles released by the instance `cleanup` body: every stream in
`this.streams`, the temp-file write stream, and the ffmpeg process
(lines 228-269). -/
def releasedResources (m : Manager) : List Nat :=
  m.streams ++ m.tempFileStream.toList ++ m.ffmpeg.toList

/-- Instance `cleanup`, lines 223-274: first the static `cleanup` runs; when it
reports the id as unknown the method returns at once, touching nothing.
Otherwise every owned stream is destroyed, the temp-file stream is ended, the
ffmpeg process is killed (each guarded by its own try/catch, so the method never
throws), and the resource fields are reset.  The on-disk files are not touched. -/
def cleanup (s : Sys) : Sys :=
  match cleanupById s with
  | (false, s1) => s1
  | (true, s1) =>
    { s1 with
      destroyed := s1.destroyed ++ releasedResources s1.mgr,
      mgr := { s1.mgr with streams := [], tempFileStream := none, ffmpeg := none } }

/-- Instance `pause`, lines 183-196: a no-op when already paused or completed;
otherwise sets `isPaused`, persists the record with `status = 'paused'`,
`lastModified = now` and `currentSize = this.currentSize`, then runs `cleanup`. -/
def pause (now : Nat) (s : Sys) : Sys :=
  if s.mgr.isPaused = true ∨ s.mgr.isCompleted = true then s
  else
    let md := { s.mgr.metadata with
                status := .paused, lastModified := now,
                currentSize := s.mgr.currentSize }
    cleanup { s with
              mgr := { s.mgr with isPaused := true, metadata := md },
              fs := { s.fs with meta? := some md } }

/-- Instance `resume`, lines 198-208: a no-op unless the manager's in-memory
`isPaused` flag is set (and it is not completed); otherwise clears the flag and
persists the record with `status = 'in progress'`. -/
def resume (now : Nat) (s : Sys) : Sys :=
  if s.mgr.isPaused = false ∨ s.mgr.isCompleted = true then s
  else
    let md := { s.mgr.metadata with status := .inProgress, lastModified := now }
    { s with
      mgr := { s.mgr with isPaused := false, metadata := md },
      fs := { s.fs with meta? := some md } }

/-- Instance `cancel`, lines 210-214: sets `isCancelled` and runs `cleanup`.
Nothing else — in particular no file is deleted here. -/
def cancel (s : Sys) : Sys :=
  cleanup { s with mgr := { s.mgr with isCancelled := true } }

/-- Reaper retention window, line 286: 24 hours in milliseconds. -/
def MAX_AGE : Nat := 24 * 60 * 60 * 1000

/-- The TypeError raised at line 289 when `loadDownloadMetadata` returned null. -/
def nullCreatedAtError : String :=
  "TypeError: Cannot read properties of null (reading createdAt)"

/-- Static `cleanupOldInstances`, lines 285-297 — one firing of the per-id
reaper interval.  The sweep loads the metadata record and immediately reads
`metadata.createdAt` with no null check, so an absent or unreadable metadata
file makes the sweep throw (`Except.error`).  When the record exists and is
older than `MAX_AGE`, the id is dropped from `instances` and `activeDownloads`,
both files are removed via `cleanupTempFiles`, and the interval is cleared. -/
def cleanupOldInstances (now : Nat) (s : Sys) : Except String Sys :=
  match s.fs.meta? with
  | none => .error nullCreatedAtError
  | some md =>
    if MAX_AGE < now - md.createdAt then
      .ok { s with registered := false, activeEntry := false, timer := false,
                   fs := { meta? := none, temp? := none } }
    else .ok s

end DownloadManager

/-- Result of `GET /download/status/:downloadId`, lines 301-334 (the derived
`progress` percentage and echoed filename are omitted; they are computed from
the fields shown). -/
inductive StatusView where
  | notFound
  | view (currentSize : Nat) (totalSize : Nat) (status : DStatus) (isActive : Bool)
deriving DecidableEq

/-- Status route, lines 301-334: 404 when the metadata file is absent; otherwise
the temp-file size, the recorded total, the status (overridden to `paused` when
an active manager has `isPaused` set), and `isActive` = presence in
`activeDownloads`. -/
def statusRoute (s : Sys) : StatusView :=
  match s.fs.meta? with
  | none => .notFound
  | some md =>
    .view (getFileSize s.fs) md.totalSize
      (if s.activeEntry = true ∧ s.mgr.isPaused = true then .paused else md.status)
      s.activeEntry

/-- Responses of `POST /download/pause/:downloadId`, lines 337-365. -/
inductive PauseResult where
  | noActive
  | noMeta
  | notInProgress
  | success
deriving DecidableEq

/-- Pause route, lines 337-365: 404 unless the id is in `activeDownloads`;
404 when the metadata file is absent; 400 unless the record says
`'in progress'`; otherwise the manager's `currentSize` is set to the temp-file
size and `downloadManager.pause()` runs to completion (persist, then cleanup)
before the success response is produced. -/
def pauseRoute (now : Nat) (s : Sys) : PauseResult × Sys :=
  if s.activeEntry = true then
    match s.fs.meta? with
    | none => (.noMeta, s)
    | some md =>
      if md.status = .inProgress then
        let s1 := DownloadManager.getInstance s md
        let s2 : Sys := { s1 with mgr := { s1.mgr with currentSize := getFileSize s1.fs } }
        (.success, DownloadManager.pause now s2)
      else (.notInProgress, s)
  else (.noActive, s)

/-- Observable events of one pause-route invocation, in program order:
metadata persists (`saveDownloadMetadata`) and the HTTP response. -/
inductive PEvent where
  | persist (md : Metadata)
  | respond (r : PauseResult)
deriving DecidableEq

/-- Persist events of `DownloadManager.pause`, lines 183-196: nothing when the
manager is already paused or completed, otherwise exactly one persist of the
paused record (the subsequent `cleanup` never writes metadata). -/
def pauseTrace (now : Nat) (s : Sys) : List PEvent :=
  if s.mgr.isPaused = true ∨ s.mgr.isCompleted = true then []
  else
    [PEvent.persist { s.mgr.metadata with
                      status := .paused, lastModified := now,
                      currentSize := s.mgr.currentSize }]

/-- Event trace of the pause route, lines 337-365, in source order: every
rejection responds without persisting; on the accepting path
`downloadManager.pause()` is awaited (its persist happens first) and only then
is the success response sent (line 360). -/
def pauseRouteTrace (now : Nat) (s : Sys) : List PEvent :=
  if s.activeEntry = true then
    match s.fs.meta? with
    | none => [.respond .noMeta]
    | some md =>
      if md.status = .inProgress then
        let s1 := DownloadManager.getInstance s md
        let s2 : Sys := { s1 with mgr := { s1.mgr with currentSize := getFileSize s1.fs } }
        pauseTrace now s2 ++ [.respond .success]
      else [.respond .notInProgress]
  else [.respond .noActive]

/-- Request-side and external-world inputs of the two streaming routes: the
query parameters, the `ytdl.validateURL` / `ytdl.getInfo` results needed by the
handler, the chunks ffmpeg will emit, and the handles of the resources the
pipeline would open. -/
structure DlEnv where
  validUrl : Bool
  url : String
  mediaType : MediaType
  quality : String
  title : String
  now : Nat
  resumeParam : Bool
  videoLen : Option Nat
  audioLen : Option Nat
  engine : List EngineChunk
  sourceIds : List Nat
  tempStreamId : Nat
  ffmpegId : Nat

/-- Fresh metadata record built by the download route, lines 522-535. -/
def mkFreshMetadata (env : DlEnv) (existingSize : Nat) : Metadata :=
  { url := env.url, mediaType := env.mediaType, quality := env.quality,
    filename := env.title ++ (if env.mediaType = .audio then ".mp3" else ".mp4"),
    contentType := if env.mediaType = .audio then "audio/mpeg" else "video/mp4",
    status := .inProgress,
    totalSize := totalContentLength env.mediaType env.videoLen env.audioLen,
    currentSize := existingSize,
    createdAt := env.now, lastModified := env.now }

/-- `startCompleteDownloadProcess`, lines 598-779, up to and including the
streaming of the engine output (the completion handlers that fire on engine exit
are outside this big step).  It opens the temp write stream with flag `'w'`
(truncate), the ytdl source stream(s) and the ffmpeg process, and the tracker
writes each forwarded chunk to both the temp file and the response, keeping
`downloadManager.currentSize` at the running total. -/
def startCompleteDownloadProcess (s : Sys) (env : DlEnv) : Sys :=
  let fwd := trackerForward env.engine
  let m : Manager :=
    { s.mgr with streams := env.sourceIds, tempFileStream := some env.tempStreamId,
                 ffmpeg := some env.ffmpegId, currentSize := fwd.length }
  { s with
    opened := s.opened ++ [env.tempStreamId] ++ env.sourceIds ++ [env.ffmpegId],
    mgr := m,
    fs := { s.fs with temp? := some fwd } }

/-- `startResumeDownloadProcess`, lines 781-972, up to and including the
streaming of the engine output.  Identical to the complete process except that
the temp write stream is opened with flag `'a'` (append) and the byte counter
starts at `existingSize` (line 792). -/
def startResumeDownloadProcess (s : Sys) (env : DlEnv) : Sys :=
  let fwd := trackerForward env.engine
  let m : Manager :=
    { s.mgr with streams := env.sourceIds, tempFileStream := some env.tempStreamId,
                 ffmpeg := some env.ffmpegId, currentSize := getFileSize s.fs + fwd.length }
  { s with
    opened := s.opened ++ [env.tempStreamId] ++ env.sourceIds ++ [env.ffmpegId],
    mgr := m,
    fs := { s.fs with temp? := some ((s.fs.temp?.getD []) ++ fwd) } }

/-- Responses of the two streaming routes.  `streamed bytes` records, in order,
every byte written to the client response body during the handled request. -/
inductive Outcome where
  | invalidUrl
  | resumeDataNotFound
  | downloadNotFound
  | notPaused
  | conflict
  | streamed (bytes : List Nat)
deriving DecidableEq

/-- Main route `GET /download`, lines 461-595, as a big step ending with the
streamed bytes.  Source order: URL validation (400); temp-file size probe, with
`resume` forced to `'true'` whenever the temp file is non-empty (line 477);
metadata load and 404 `'Resume data not found'` when resuming with no metadata
file (lines 481-487); conflict check against `activeDownloads` (lines 489-492);
then metadata save, manager registration, and — when the temp file is
non-empty — a replay of the whole temp file to the client (lines 576-582)
followed by the resume process, otherwise the complete process. -/
def downloadRoute (s : Sys) (env : DlEnv) : Outcome × Sys :=
  if env.validUrl = false then (.invalidUrl, s)
  else
    let existingSize := getFileSize s.fs
    if (env.resumeParam = true ∨ 0 < existingSize) ∧ 0 < existingSize ∧
        s.fs.meta? = none then
      (.resumeDataNotFound, s)
    else if s.activeEntry = true then (.conflict, s)
    else
      let md : Metadata :=
        if (env.resumeParam = true ∨ 0 < existingSize) ∧ 0 < existingSize then
          match s.fs.meta? with
          | some md0 => { md0 with status := .inProgress, lastModified := env.now }
          | none => mkFreshMetadata env existingSize
        else mkFreshMetadata env existingSize
      let s1 : Sys := { s with fs := { s.fs with meta? := some md } }
      let s2 := DownloadManager.getInstance s1 md
      let s3 : Sys := { s2 with activeEntry := true }
      if 0 < existingSize then
        (.streamed ((s.fs.temp?.getD []) ++ trackerForward env.engine),
         startResumeDownloadProcess s3 env)
      else
        (.streamed (trackerForward env.engine), startCompleteDownloadProcess s3 env)

/-- Resume route `GET /download/resume/:downloadId`, lines 368-429 together with
`resumeDownloadProcess`, lines 432-458.  Source order: 404 when the metadata
file is absent; 400 unless the record says `'paused'`; 409 when the id is in
`activeDownloads`; when the temp file already holds at least `totalSize` bytes
the existing file is streamed as-is (lines 414-419); otherwise
`resumeDownloadProcess` runs — `getInstance`, `downloadManager.resume()`,
registration in `activeDownloads`, then `startResumeDownloadProcess` — and the
client receives only the freshly produced engine output (no replay of the
existing temp bytes happens on this path). -/
def resumeRoute (s : Sys) (env : DlEnv) : Outcome × Sys :=
  match s.fs.meta? with
  | none => (.downloadNotFound, s)
  | some md =>
    if md.status = .paused then
      if s.activeEntry = true then (.conflict, s)
      else
        let existingSize := getFileSize s.fs
        if 0 < existingSize ∧ md.totalSize ≠ 0 ∧ md.totalSize ≤ existingSize then
          (.streamed (s.fs.temp?.getD []), s)
        else
          let s1 := DownloadManager.getInstance s md
          let s2 := DownloadManager.resume env.now s1
          let s3 : Sys := { s2 with activeEntry := true }
          (.streamed (trackerForward env.engine), startResumeDownloadProcess s3 env)
    else (.notPaused, s)

/-- Delete route `DELETE /download/:downloadId`, lines 975-997: when the id is
not in `instances` only the files are removed; otherwise the id is dropped from
`activeDownloads`, the (possibly reloaded) instance is cancelled, and the files
are removed.  Neither branch clears the id's reaper interval. -/
def deleteRoute (s : Sys) : Sys :=
  if s.registered = false then cleanupTempFiles s
  else
    let s1 : Sys := { s with activeEntry := false }
    let s2 :=
      match s1.fs.meta? with
      | some md => DownloadManager.getInstance s1 md
      | none => s1
    cleanupTempFiles (DownloadManager.cancel s2)

/-- Concrete in-progress metadata record used to instantiate the theorems. -/
def mdInProgress : Metadata :=
  { url := "u", mediaType := .audio, quality := "highest", filename := "t.mp3",
    contentType := "audio/mpeg", status := .inProgress, totalSize := 3,
    currentSize := 1, createdAt := 0, lastModified := 0 }

/-- Concrete paused metadata record (same download, after a pause at 1 byte). -/
def mdPaused : Metadata := { mdInProgress with status := .paused }

/-- Concrete external environment: a valid audio request whose engine emits one
unsuppressed chunk `[8]`. -/
def envA : DlEnv :=
  { validUrl := true, url := "u", mediaType := .audio, quality := "highest",
    title := "t", now := 7, resumeParam := false, videoLen := none,
    audioLen := some 3, engine := [⟨[8], false, false⟩], sourceIds := [21],
    tempStreamId := 22, ffmpegId := 23 }

/-- Concrete state: a paused download with 1 byte `[7]` in the temp artifact and
no live session. -/
def sPausedDisk : Sys :=
  { mgr := DownloadManager.freshManager mdPaused, registered := false,
    activeEntry := false, timer := true,
    fs := { meta? := some mdPaused, temp? := some [7] },
    opened := [], destroyed := [] }

/-- Concrete state: an in-progress download with a live registered session
owning one source stream, a temp-file stream and an ffmpeg process. -/
def sActive : Sys :=
  { mgr := { DownloadManager.freshManager mdInProgress with
             streams := [1], tempFileStream := some 2, ffmpeg := some 3 },
    registered := true, activeEntry := true, timer := true,
    fs := { meta? := some mdInProgress, temp? := some [5] },
    opened := [2, 1, 3], destroyed := [] }

/-- Concrete state: a paused download whose id nevertheless has a live session
entry in `activeDownloads` (a racing resume already claimed it). -/
def sActivePaused : Sys :=
  { sActive with fs := { meta? := some mdPaused, temp? := some [5] } }

/-- Concrete state: a paused download whose temp artifact `[7, 7, 7]` already
holds `totalSize = 3` bytes. -/
def sPausedFull : Sys :=
  { sPausedDisk with fs := { meta? := some mdPaused, temp? := some [7, 7, 7] } }

/-- Concrete state: a non-empty temp artifact left on disk with no metadata
file and no session. -/
def sOrphanTemp : Sys :=
  { sPausedDisk with fs := { meta? := none, temp? := some [7] } }

/-- Concrete state: a session whose manager's in-memory `isPaused` flag is
already set (a pause is in flight). -/
def sAlreadyPausedMgr : Sys :=
  { sActive with mgr := { sActive.mgr with isPaused := true } }

/-- Two unsuppressed engine chunks of sizes 2 and 1, in that order. -/
def cexChunks : List EngineChunk :=
  [⟨[0, 0], false, false⟩, ⟨[0], false, false⟩]

/-- Helper: `getInstance` never touches the on-disk files. -/
theorem getInstance_fs (s : Sys) (md : Metadata) :
    (DownloadManager.getInstance s md).fs = s.fs := by
  by_cases h : s.registered = true <;> simp [DownloadManager.getInstance, h]

/-- Helper: after `getInstance` the id is registered in `instances`. -/
theorem getInstance_registered (s : Sys) (md : Metadata) :
    (DownloadManager.getInstance s md).registered = true := by
  by_cases h : s.registered = true <;> simp [DownloadManager.getInstance, h]

/-- Helper: `getInstance` never touches `activeDownloads`. -/
theorem getInstance_activeEntry (s : Sys) (md : Metadata) :
    (DownloadManager.getInstance s md).activeEntry = s.activeEntry := by
  by_cases h : s.registered = true <;> simp [DownloadManager.getInstance, h]

/-- Helper: `cleanup` never touches the on-disk files — it only destroys
in-memory streams and the child process. -/
theorem cleanup_fs (s : Sys) : (DownloadManager.cleanup s).fs = s.fs := by
  by_cases h : s.registered = true <;>
    simp [DownloadManager.cleanup, DownloadManager.cleanupById, h]

/-- Helper: `cleanup` never touches the reaper interval map. -/
theorem cleanup_timer (s : Sys) : (DownloadManager.cleanup s).timer = s.timer := by
  by_cases h : s.registered = true <;>
    simp [DownloadManager.cleanup, DownloadManager.cleanupById, h]

/-- Helper: `cleanup` on a registered id removes it from both `instances` and
`activeDownloads`. -/
theorem cleanup_deregisters (s : Sys) (h : s.registered = true) :
    (DownloadManager.cleanup s).registered = false ∧
    (DownloadManager.cleanup s).activeEntry = false := by
  simp [DownloadManager.cleanup, DownloadManager.cleanupById, h]

/-- Claim C3 (code bug): the progress tracker of the complete download path
persists `metadata.currentSize = chunk.length` on every `data` event
(lines 771-774) — the length of the single chunk, not the running total — so
with successive chunk sizes 2 then 1 the persisted `currentSize` sequence is
`[2, 1]`, which is decreasing while the record's status is `'in progress'`,
contradicting the claimed non-decreasing invariant.  (The surrounding code shows
the cumulative total was intended: the same transform keeps
`downloadManager.currentSize = bytesDownloaded` and the resume-path tracker,
lines 952-959, persists a cumulative counter.) -/
theorem complete_path_persisted_size_decreases :
    completePersistedSizes cexChunks = [2, 1] ∧
    ¬ List.Pairwise (· ≤ ·) (completePersistedSizes cexChunks) :=
  ⟨rfl, by decide⟩

/-- Claim C5 counterexample: for a video request whose selected video format has
content length 100 and whose audio format's content length is unknown, the code
records the number `100` as the total (the missing length is treated as zero,
lines 512-514), whereas the claim requires the recorded total to be
unknown/absent. -/
theorem missing_length_recorded_as_number :
    totalContentLength .video (some 100) none = 100 ∧
    specTotalSize .video (some 100) none = none ∧
    (some 100 : Option Nat) ≠ none :=
  ⟨rfl, rfl, by decide⟩

/-- Claim C5 (amended): when both selected formats' content lengths are known
the total size estimate is their sum (agreeing with the spec); when either is
unknown the code substitutes 0 for the missing length and records the resulting
number — possibly 0 — as `totalSize`, rather than leaving it unknown
(lines 502-520). -/
theorem total_size_estimate (v a : Nat) (va : Option Nat) :
    totalContentLength .video (some v) (some a) = v + a ∧
    specTotalSize .video (some v) (some a) = some (v + a) ∧
    totalContentLength .video none (some a) = a ∧
    totalContentLength .video (some v) none = v ∧
    totalContentLength .video none none = 0 ∧
    totalContentLength .audio va (some a) = a ∧
    totalContentLength .audio va none = 0 := by
  refine ⟨rfl, rfl, ?_, rfl, rfl, rfl, rfl⟩
  simp [totalContentLength]

/-- Claim C8 counterexample: for an audio request the engine argument vector is
identical whether or not cover art is present, contains no `-map` argument, and
declares exactly one input (`-i pipe:3`) — so no still image is ever mapped to
an attached-picture stream and no image format (sniffed or otherwise) plays any
role, contrary to the claim's audio-with-cover-art clause. -/
theorem audio_args_ignore_cover_art :
    buildEngineArgs .audio true .png = buildEngineArgs .audio false .png ∧
    "-map" ∉ buildEngineArgs .audio true .png ∧
    (buildEngineArgs .audio true .png).count "-i" = 1 :=
  ⟨rfl, by decide, by decide⟩

/-- Claim C8 (amended): the engine argument vector is a pure function of
`outputKind` alone — cover art and image format have no influence because the
source has no cover-art handling at all.  For video the arguments copy the video
stream untouched (`-c:v copy`), re-encode audio to AAC (`-c:a aac`) and select a
fragmented/fast-start MP4 container (`-movflags frag_keyframe+empty_moov+faststart`,
`-f mp4`); for audio they re-encode to constant-bitrate MP3
(`-c:a libmp3lame -b:a 192k -f mp3`). -/
theorem engine_args_pure_in_output_kind (t : MediaType) (h h' : Bool)
    (f f' : ImageFormat) :
    buildEngineArgs t h f = buildEngineArgs t h' f' ∧
    buildEngineArgs .video h f =
      ["-loglevel", "error", "-i", "pipe:3", "-i", "pipe:4", "-c:v", "copy",
       "-c:a", "aac", "-movflags", "frag_keyframe+empty_moov+faststart",
       "-avoid_negative_ts", "make_zero", "-fflags", "+genpts", "-f", "mp4",
       "pipe:1"] ∧
    buildEngineArgs .audio h f =
      ["-loglevel", "error", "-i", "pipe:3", "-c:a", "libmp3lame", "-b:a",
       "192k", "-f", "mp3", "pipe:1"] :=
  ⟨rfl, rfl, rfl⟩

/-- Helper: one extra `cleanup` after a `cleanup` is a complete no-op — the
second call's static guard (`instances.has`) fails, so it returns before
touching anything. -/
theorem cleanup_cleanup (s : Sys) :
    DownloadManager.cleanup (DownloadManager.cleanup s) = DownloadManager.cleanup s := by
  by_cases h : s.registered = true <;>
    simp [DownloadManager.cleanup, DownloadManager.cleanupById, h]

/-- Claim C6 (confirmed): `cleanup` is idempotent and one-shot-guarded — the
first call deregisters the id (the one-shot guard is the `instances` membership
test of the static `cleanup`, lines 275-283) and releases the owned resources;
every further call is a complete no-op, so no resource is ever released twice,
the modelled method is total (all teardown steps in the source are wrapped in
try/catch, so repeats never throw), and the registry, the session fields and the
destruction log after `n + 1` calls equal their state after the first call. -/
theorem cleanup_idempotent (n : Nat) (s : Sys) :
    DownloadManager.cleanup^[n + 1] s = DownloadManager.cleanup s := by
  induction n with
  | zero => rfl
  | succ k ih =>
    rw [Function.iterate_succ_apply', ih, cleanup_cleanup]

/-- Claim C2 counterexample: cancelling the live in-progress download `sActive`
(exactly what the `req.on('close')` disconnect handler does, lines 562-567)
leaves both the metadata record and the temp artifact on disk, and a subsequent
status query still finds the record instead of returning NotFound. -/
theorem cancel_keeps_record_and_artifact :
    (DownloadManager.cancel sActive).fs.meta? = some mdInProgress ∧
    (DownloadManager.cancel sActive).fs.temp? = some [5] ∧
    statusRoute (DownloadManager.cancel sActive) ≠ StatusView.notFound :=
  ⟨rfl, rfl, by decide⟩

/-- Claim C2 (amended): `cancel` (lines 210-214) — including the cancel fired on
client disconnect — aborts the in-memory resources and removes the id from
`instances` and `activeDownloads`, but deletes neither the metadata record nor
the temp artifact, so a subsequent status query still returns the persisted
record.  The record and artifact are removed, and status then returns NotFound,
only by the explicit `DELETE /download/:downloadId` route, whose
`cleanupTempFiles` unlinks both files (lines 975-997). -/
theorem cancel_cleanup_scope (s : Sys) :
    (DownloadManager.cancel s).fs = s.fs ∧
    (s.registered = true →
      (DownloadManager.cancel s).registered = false ∧
      (DownloadManager.cancel s).activeEntry = false) ∧
    (∀ md, s.fs.meta? = some md →
      statusRoute (DownloadManager.cancel s) ≠ StatusView.notFound) ∧
    statusRoute (deleteRoute s) = StatusView.notFound := by
  have hfs : (DownloadManager.cancel s).fs = s.fs := by
    unfold DownloadManager.cancel
    rw [cleanup_fs]
  refine ⟨hfs, ?_, ?_, ?_⟩
  · intro h
    unfold DownloadManager.cancel
    exact cleanup_deregisters _ h
  · intro md hmd
    simp [statusRoute, hfs, hmd]
  · by_cases h : s.registered = false
    · simp [deleteRoute, h, cleanupTempFiles, statusRoute]
    · cases hm : s.fs.meta? <;>
        simp [deleteRoute, h, hm, cleanupTempFiles, statusRoute]

/-- Claim C2 witness: instantiating at the live session `sActive` — cancel
deregisters the session, the status query after cancel still finds the record,
and only the DELETE route makes status return NotFound. -/
theorem cancel_cleanup_scope_witness :
    (DownloadManager.cancel sActive).registered = false ∧
    (DownloadManager.cancel sActive).activeEntry = false ∧
    statusRoute (DownloadManager.cancel sActive) ≠ StatusView.notFound ∧
    statusRoute (deleteRoute sActive) = StatusView.notFound := by
  have h := cancel_cleanup_scope sActive
  exact ⟨(h.2.1 rfl).1, (h.2.1 rfl).2, h.2.2.1 mdInProgress rfl, h.2.2.2⟩

/-- Claim C10 (confirmed): the reaper sweep `cleanupOldInstances`
(lines 285-297) dereferences `metadata.createdAt` with no null check, so
whenever the metadata file for its id is absent (`loadDownloadMetadata` returns
null) the sweep throws a TypeError instead of completing.  The error branch is
reachable: the DELETE route deletes both files but clears the id's reaper
interval in neither of its branches, so the still-armed interval's next firing
finds no metadata file and throws. -/
theorem reaper_sweep_null_metadata_throws (now : Nat) (s : Sys) :
    (s.fs.meta? = none →
      DownloadManager.cleanupOldInstances now s =
        .error DownloadManager.nullCreatedAtError) ∧
    (s.timer = true →
      (deleteRoute s).timer = true ∧
      (deleteRoute s).fs.meta? = none ∧
      DownloadManager.cleanupOldInstances now (deleteRoute s) =
        .error DownloadManager.nullCreatedAtError) := by
  constructor
  · intro h
    simp [DownloadManager.cleanupOldInstances, h]
  · intro ht
    have hmeta : (deleteRoute s).fs.meta? = none := by
      by_cases h : s.registered = false
      · simp [deleteRoute, h, cleanupTempFiles]
      · cases hm : s.fs.meta? <;> simp [deleteRoute, h, hm, cleanupTempFiles]
    have htimer : (deleteRoute s).timer = true := by
      by_cases h : s.registered = false
      · simp [deleteRoute, h, cleanupTempFiles, ht]
      · have hr : s.registered = true := by
          revert h
          cases s.registered <;> simp
        cases hm : s.fs.meta? <;>
          simp [deleteRoute, h, hm, cleanupTempFiles, DownloadManager.cancel,
                cleanup_timer, DownloadManager.getInstance, hr, ht]
    exact ⟨htimer, hmeta, by simp [DownloadManager.cleanupOldInstances, hmeta]⟩

/-- Claim C10 witness: after deleting the live download `sActive` through the
DELETE route, its reaper interval is still armed, the metadata file is gone, and
the next sweep firing throws the TypeError. -/
theorem reaper_sweep_null_metadata_throws_witness :
    (deleteRoute sActive).timer = true ∧
    (deleteRoute sActive).fs.meta? = none ∧
    DownloadManager.cleanupOldInstances 0 (deleteRoute sActive) =
      .error DownloadManager.nullCreatedAtError :=
  (reaper_sweep_null_metadata_throws 0 sActive).2 rfl

/-- Claim C4 (confirmed): a request naming an id whose entry is in
`activeDownloads` is rejected with Conflict (409) and the returned state is the
input state unchanged — so no source stream, engine process or file handle is
opened (the `opened` log is untouched), nothing is saved, and no second session
is created or registered.  For `GET /download` the conflict check (lines
489-492) runs before `ytdl.getInfo`, the metadata save, `getInstance` and the
pipeline; the hypotheses state that the request survives the earlier checks
(valid URL, and metadata present whenever a non-empty temp file forces the
resume branch, lines 475-487).  For `GET /download/resume/:downloadId` the
conflict check (lines 381-384) runs right after the metadata-exists and
status-is-paused checks. -/
theorem duplicate_active_id_conflict (s : Sys) (env : DlEnv) :
    (env.validUrl = true →
      (0 < getFileSize s.fs → s.fs.meta? ≠ none) →
      s.activeEntry = true →
      downloadRoute s env = (.conflict, s)) ∧
    (∀ md, s.fs.meta? = some md → md.status = .paused → s.activeEntry = true →
      resumeRoute s env = (.conflict, s)) := by
  constructor
  · intro hv hm ha
    by_cases hs : 0 < getFileSize s.fs
    · have hsome : ¬ s.fs.meta? = none := hm hs
      simp [downloadRoute, hv, hs, hsome, ha]
    · simp [downloadRoute, hv, hs, ha]
  · intro md hmd hst ha
    simp [resumeRoute, hmd, hst, ha]

/-- Claim C4 witness: the second `/download` request for the live in-progress
download `sActive`, and a resume request for `sActivePaused` (paused record,
live `activeDownloads` entry), both get Conflict with the state unchanged. -/
theorem duplicate_active_id_conflict_witness :
    downloadRoute sActive envA = (Outcome.conflict, sActive) ∧
    resumeRoute sActivePaused envA = (Outcome.conflict, sActivePaused) :=
  ⟨(duplicate_active_id_conflict sActive envA).1 rfl (fun _ => by simp [sActive]) rfl,
   (duplicate_active_id_conflict sActivePaused envA).2 mdPaused rfl rfl rfl⟩

/-- Claim C9 (confirmed): in `GET /download` a non-empty temp file forces the
resume branch regardless of the caller's `resume` flag (line 477 overwrites
`resume` with `'true'`): with `resume=false` the request behaves exactly as with
`resume=true`; if the metadata file for the id is missing the request fails 404
`'Resume data not found'` (lines 481-487) instead of starting fresh; and when
the metadata is present (and the id is not active) the response replays the
existing temp bytes and continues with fresh engine output — the resume path. -/
theorem nonempty_temp_forces_resume (s : Sys) (env : DlEnv)
    (hv : env.validUrl = true) (_hr : env.resumeParam = false)
    (hs : 0 < getFileSize s.fs) :
    downloadRoute s env = downloadRoute s { env with resumeParam := true } ∧
    (s.fs.meta? = none → downloadRoute s env = (.resumeDataNotFound, s)) ∧
    (∀ md, s.fs.meta? = some md → s.activeEntry = false →
      (downloadRoute s env).1 =
        .streamed ((s.fs.temp?.getD []) ++ trackerForward env.engine)) := by
  refine ⟨?_, ?_, ?_⟩
  · cases hm : s.fs.meta? with
    | none => simp [downloadRoute, hv, hs, hm]
    | some md =>
      by_cases ha : s.activeEntry = true
      · simp [downloadRoute, hv, hs, hm, ha]
      · simp [downloadRoute, hv, hs, hm, ha, startResumeDownloadProcess]
  · intro h
    simp [downloadRoute, hv, hs, h]
  · intro md hmd ha
    simp [downloadRoute, hv, hs, hmd, ha]

/-- Claim C9 witness: with `resume=false` in `envA`, the request for the id of
`sOrphanTemp` (1 temp byte, no metadata file) fails with ResumeDataNotFound, and
the request for the id of `sPausedDisk` (1 temp byte `[7]`, paused record)
replays the temp byte and then streams the fresh engine output. -/
theorem nonempty_temp_forces_resume_witness :
    downloadRoute sOrphanTemp envA = (Outcome.resumeDataNotFound, sOrphanTemp) ∧
    (downloadRoute sPausedDisk envA).1 =
      Outcome.streamed ((sPausedDisk.fs.temp?.getD []) ++ trackerForward envA.engine) :=
  ⟨(nonempty_temp_forces_resume sOrphanTemp envA rfl rfl (by decide)).2.1 rfl,
   (nonempty_temp_forces_resume sPausedDisk envA rfl rfl (by decide)).2.2 mdPaused rfl rfl⟩

/-- Claim C1 counterexample: resuming the paused download `sPausedDisk` (temp
artifact `[7]`, so S = 1) through `GET /download/resume/:downloadId` sends the
client only the fresh engine output `[8]` — not the previously produced byte
`[7]` followed by the continuation — so this resume path does not replay the
Temp Artifact bytes to the client. -/
theorem resumeRoute_does_not_replay :
    (resumeRoute sPausedDisk envA).1 = Outcome.streamed [8] ∧
    sPausedDisk.fs.temp?.getD [] = [7] ∧
    Outcome.streamed [8] ≠ Outcome.streamed ([7] ++ [8]) :=
  ⟨rfl, rfl, by decide⟩

/-- Claim C1 (amended): only the `GET /download` forced-resume path replays the
existing Temp Artifact bytes to the client before forwarding fresh engine
output (lines 576-582).  The dedicated `GET /download/resume/:downloadId` route
does not replay: when the artifact is still incomplete the client receives only
the freshly produced engine output (lines 421-422 via
`startResumeDownloadProcess`), and when the artifact already holds at least
`totalSize` bytes the client receives just the existing file bytes with no
fresh continuation (lines 414-419). -/
theorem replay_behavior_by_route (s : Sys) (env : DlEnv) :
    (env.validUrl = true → 0 < getFileSize s.fs → s.fs.meta? ≠ none →
      s.activeEntry = false →
      (downloadRoute s env).1 =
        .streamed ((s.fs.temp?.getD []) ++ trackerForward env.engine)) ∧
    (∀ md, s.fs.meta? = some md → md.status = .paused → s.activeEntry = false →
      ¬ (0 < getFileSize s.fs ∧ md.totalSize ≠ 0 ∧ md.totalSize ≤ getFileSize s.fs) →
      (resumeRoute s env).1 = .streamed (trackerForward env.engine)) ∧
    (∀ md, s.fs.meta? = some md → md.status = .paused → s.activeEntry = false →
      (0 < getFileSize s.fs ∧ md.totalSize ≠ 0 ∧ md.totalSize ≤ getFileSize s.fs) →
      (resumeRoute s env).1 = .streamed (s.fs.temp?.getD [])) := by
  refine ⟨?_, ?_, ?_⟩
  · intro hv hs hm ha
    cases hmm : s.fs.meta? with
    | none => exact absurd hmm hm
    | some md => simp [downloadRoute, hv, hs, hmm, ha]
  · intro md hmd hst ha hcond
    simp [resumeRoute, hmd, hst, ha, hcond]
  · intro md hmd hst ha hcond
    simp [resumeRoute, hmd, hst, ha, hcond]

/-- Claim C1 witness: `/download` on `sPausedDisk` replays `[7]` then streams
the fresh output; the resume route on `sPausedDisk` streams only the fresh
output; the resume route on the already-complete `sPausedFull` streams only the
existing file. -/
theorem replay_behavior_by_route_witness :
    (downloadRoute sPausedDisk envA).1 =
      Outcome.streamed ((sPausedDisk.fs.temp?.getD []) ++ trackerForward envA.engine) ∧
    (resumeRoute sPausedDisk envA).1 =
      Outcome.streamed (trackerForward envA.engine) ∧
    (resumeRoute sPausedFull envA).1 =
      Outcome.streamed (sPausedFull.fs.temp?.getD []) := by
  have h1 := replay_behavior_by_route sPausedDisk envA
  have h2 := replay_behavior_by_route sPausedFull envA
  exact ⟨h1.1 rfl (by decide) (by simp [sPausedDisk]) rfl,
         h1.2.1 mdPaused rfl rfl rfl (by decide),
         h2.2.2 mdPaused rfl rfl rfl (by decide)⟩

/-- Helper: a full run of `DownloadManager.pause` on a not-yet-paused,
not-completed manager persists the paused record before its terminal `cleanup`,
and the `cleanup` deregisters a registered id. -/
theorem pause_run (now : Nat) (s : Sys) (hp : s.mgr.isPaused = false)
    (hc : s.mgr.isCompleted = false) :
    (DownloadManager.pause now s).fs.meta? =
      some { s.mgr.metadata with
             status := .paused, lastModified := now,
             currentSize := s.mgr.currentSize } ∧
    (s.registered = true → (DownloadManager.pause now s).activeEntry = false) := by
  unfold DownloadManager.pause
  rw [if_neg (by simp [hp, hc])]
  constructor
  · rw [cleanup_fs]
  · intro hr
    refine (cleanup_deregisters _ ?_).2
    exact hr

/-- Claim C7 (confirmed): the pause route (lines 337-365) accepts only when the
persisted record says `'in progress'` (400 otherwise) and only for an id in
`activeDownloads` (404 otherwise); on the accepting path the paused record
carrying the last known size (the temp-file size measured at line 357) is
persisted strictly before the success response — the event trace is exactly
`[persist pausedRecord, respond success]` — and the final state carries that
persisted record with the id deregistered; and a repeated `pause()` on an
already-paused or completed manager changes nothing and persists nothing
(lines 183-184). -/
theorem pause_persist_and_idempotence (now : Nat) (s : Sys) :
    (s.mgr.isPaused = true ∨ s.mgr.isCompleted = true →
      DownloadManager.pause now s = s ∧ pauseTrace now s = []) ∧
    (s.activeEntry = false → pauseRoute now s = (.noActive, s)) ∧
    (∀ md, s.fs.meta? = some md → md.status ≠ .inProgress → s.activeEntry = true →
      pauseRoute now s = (.notInProgress, s)) ∧
    (∀ md, s.fs.meta? = some md → md.status = .inProgress → s.activeEntry = true →
      (DownloadManager.getInstance s md).mgr.isPaused = false →
      (DownloadManager.getInstance s md).mgr.isCompleted = false →
      (pauseRoute now s).1 = .success ∧
      ((pauseRoute now s).2).fs.meta? =
        some { (DownloadManager.getInstance s md).mgr.metadata with
               status := .paused, lastModified := now,
               currentSize := getFileSize s.fs } ∧
      ((pauseRoute now s).2).activeEntry = false ∧
      pauseRouteTrace now s =
        [PEvent.persist { (DownloadManager.getInstance s md).mgr.metadata with
                          status := .paused, lastModified := now,
                          currentSize := getFileSize s.fs },
         PEvent.respond .success]) := by
  refine ⟨?_, ?_, ?_, ?_⟩
  · intro h
    constructor
    · unfold DownloadManager.pause
      rw [if_pos h]
    · unfold pauseTrace
      rw [if_pos h]
  · intro h
    simp [pauseRoute, h]
  · intro md hmd hst ha
    simp [pauseRoute, ha, hmd, hst]
  · intro md hmd hst ha hp hc
    by_cases hreg : s.registered = true
    · simp [DownloadManager.getInstance, hreg] at hp hc
      refine ⟨?_, ?_, ?_, ?_⟩ <;>
        simp [pauseRoute, pauseRouteTrace, pauseTrace, DownloadManager.pause,
              DownloadManager.cleanup, DownloadManager.cleanupById,
              DownloadManager.getInstance, ha, hmd, hst, hreg, hp, hc]
    · refine ⟨?_, ?_, ?_, ?_⟩ <;>
        simp [pauseRoute, pauseRouteTrace, pauseTrace, DownloadManager.pause,
              DownloadManager.cleanup, DownloadManager.cleanupById,
              DownloadManager.getInstance, DownloadManager.freshManager,
              ha, hmd, hst, hreg]

/-- Claim C7 witness: pausing the live in-progress download `sActive` at time 7
succeeds, the persisted record is the paused one with the measured size 1, the
id is deregistered, and the persist event precedes the success response. -/
theorem pause_persist_and_idempotence_witness :
    (pauseRoute 7 sActive).1 = PauseResult.success ∧
    ((pauseRoute 7 sActive).2).fs.meta? =
      some { mdInProgress with
             status := .paused, lastModified := 7,
             currentSize := 1 } ∧
    ((pauseRoute 7 sActive).2).activeEntry = false ∧
    DownloadManager.pause 7 sAlreadyPausedMgr = sAlreadyPausedMgr := by
  have h := pause_persist_and_idempotence 7 sActive
  have h4 := h.2.2.2 mdInProgress rfl rfl rfl rfl rfl
  have hrep := (pause_persist_and_idempotence 7 sAlreadyPausedMgr).1 (Or.inl rfl)
  exact ⟨h4.1, h4.2.1, h4.2.2.1, hrep.1⟩

end YoutubeDownloader
